import Mathlib

/-!
Shallow embedding of the TruLedgr-API authentication and impersonation
session core (src/truledgr_api/utils/auth.py, src/truledgr_api/routers/auth.py,
src/truledgr_api/models/auth.py, src/truledgr_api/models/user.py).

Modelling conventions:
* UTC timestamps are `Nat` (seconds); `datetime.now(timezone.utc)` is an
  explicit `now` argument threaded through every operation.
* The JWT layer is modelled abstractly: a `Token` is its claims `Payload`
  together with a `signedWithKey` flag standing for "signature valid for the
  server's secret key".  `jwt.decode` (python-jose) rejects a token whose
  `exp` claim is strictly in the past, so `verify_token` accepts exactly when
  the signature is valid and `now <= exp`.
* Optional SQL/claim values are `Option`; Python truthiness on an optional
  string (`if session_token:`) is the `truthy` predicate (false on `none` and
  on the empty string).  The `Optional[str]` primary-key `id` columns are
  modelled as `String` with `""` playing the role of the absent value, which
  is what the routes' `if not user.id:` truthiness guards test.
* `select(...).first()` is `List.find?`; ORM row mutation followed by
  `commit()` is an in-place functional update of the row list.
* External bcrypt verification (`pwd_context.verify`) is passed to `login`
  as an explicit function argument, mirroring the Credential Verifier
  collaborator.
-/

/-- `SessionStatus` from models/auth.py. -/
inductive SessionStatus where
  | active
  | expired
  | revoked
deriving Repr, DecidableEq

/-- `User` from models/user.py (fields used by the auth core). -/
structure User where
  id : String
  username : String
  email : String
  is_active : Bool
  is_admin : Bool
  hashed_password : String
deriving Repr, DecidableEq

/-- `UserSession` from models/auth.py. -/
structure UserSession where
  id : String
  user_id : String
  session_token : String
  refresh_token : Option String
  status : SessionStatus
  expires_at : Nat
  last_activity : Nat
  ip_address : Option String
  user_agent : Option String
deriving Repr, DecidableEq

/-- Modelled from the spec: the `ImpersonationSession` model class is imported
by routers/auth.py and utils/auth.py from models/auth.py but its definition is
missing from the sources; its fields follow section 3 of the spec
("identifier, admin user identifier, target user identifier, session token,
optional human-readable reason, created timestamp, absolute expiry, ended
timestamp (nullable), status") and match every field access in
utils/auth.py. -/
structure ImpersonationSession where
  id : String
  admin_user_id : String
  target_user_id : String
  session_token : String
  reason : Option String
  created_at : Nat
  expires_at : Nat
  ended_at : Option Nat
  status : SessionStatus
deriving Repr, DecidableEq

/-- The persistent store visible to the auth core: the `users`,
`user_sessions` and `impersonation_sessions` tables. -/
structure Db where
  users : List User
  sessions : List UserSession
  impSessions : List ImpersonationSession
deriving Repr, DecidableEq

/-- A FastAPI `HTTPException` value: status code, detail message, headers. -/
structure HTTPError where
  status_code : Nat
  detail : String
  headers : List (String × String)
deriving Repr, DecidableEq

/-- The JWT claims bag: every key the auth core reads via `payload.get`. -/
structure Payload where
  sub : Option String
  session_token : Option String
  type : String
  exp : Nat
  impersonation : Bool
  admin_user_id : Option String
  impersonation_session_id : Option String
deriving Repr, DecidableEq

/-- A bearer token: its claims plus whether its signature verifies against
the process-wide secret key. -/
structure Token where
  payload : Payload
  signedWithKey : Bool
deriving Repr, DecidableEq

/-- Python truthiness of an optional string (`if session_token:`). -/
def truthy : Option String → Bool
  | none => false
  | some s => !(s == "")

/-- Update the first element matching `p` (the row returned by `.first()`
and then mutated in place). -/
def updateFirst (p : α → Bool) (f : α → α) : List α → List α
  | [] => []
  | x :: xs => if p x then f x :: xs else x :: updateFirst p f xs

/-- `create_access_token` (utils/auth.py): copies the claims, stamps
`exp = now + delta` (default 15 minutes) and `type = "access"`, and signs
with the server key. -/
def create_access_token (data : Payload) (now : Nat) (expires_delta : Option Nat) : Token :=
  let expire : Nat :=
    match expires_delta with
    | some d => now + d
    | none => now + 15 * 60
  { payload := { data with exp := expire, type := "access" }, signedWithKey := true }

/-- `create_refresh_token` (utils/auth.py): like `create_access_token` but
`type = "refresh"` and a 7-day default lifetime. -/
def create_refresh_token (data : Payload) (now : Nat) (expires_delta : Option Nat) : Token :=
  let expire : Nat :=
    match expires_delta with
    | some d => now + d
    | none => now + 7 * 24 * 3600
  { payload := { data with exp := expire, type := "refresh" }, signedWithKey := true }

/-- `verify_token` (utils/auth.py): `jwt.decode` returns the claims when the
signature matches the secret and the `exp` claim is not in the past,
otherwise the `JWTError` is mapped to `none`. -/
def verify_token (now : Nat) (t : Token) : Option Payload :=
  if t.signedWithKey && decide (now ≤ t.payload.exp) then some t.payload else none

/-- The `credentials_exception` raised by both identity resolvers. -/
def credentials_exception : HTTPError :=
  { status_code := 401
    detail := "Could not validate credentials"
    headers := [("WWW-Authenticate", "Bearer")] }

/-- `select(UserSession).where(session_token == st, status == ACTIVE).first()`. -/
def findSessionByTokenActive (db : Db) (st : String) : Option UserSession :=
  db.sessions.find? (fun s => s.session_token == st && s.status == SessionStatus.active)

/-- `select(ImpersonationSession).where(session_token == st, status == ACTIVE).first()`. -/
def findImpSessionByTokenActive (db : Db) (st : String) : Option ImpersonationSession :=
  db.impSessions.find? (fun s => s.session_token == st && s.status == SessionStatus.active)

/-- `select(User).where(User.id == uid).first()`. -/
def findUserById (db : Db) (uid : String) : Option User :=
  db.users.find? (fun u => u.id == uid)

/-- `select(User).where(User.username == name).first()`. -/
def findUserByUsername (db : Db) (name : String) : Option User :=
  db.users.find? (fun u => u.username == name)

/-- `get_current_user` (utils/auth.py): decode the bearer token, cross-check
the correlated ordinary session's liveness when a `session_token` claim is
present, then load the subject user. -/
def get_current_user (db : Db) (now : Nat) (t : Token) : Except HTTPError User :=
  match verify_token now t with
  | none => Except.error credentials_exception
  | some payload =>
    match payload.sub with
    | none => Except.error credentials_exception
    | some user_id =>
      let sessionCheck : Except HTTPError Unit :=
        if truthy payload.session_token then
          match findSessionByTokenActive db (payload.session_token.getD "") with
          | none => Except.error credentials_exception
          | some s =>
            if s.expires_at < now then Except.error credentials_exception
            else Except.ok ()
        else Except.ok ()
      match sessionCheck with
      | Except.error e => Except.error e
      | Except.ok _ =>
        match findUserById db user_id with
        | none => Except.error credentials_exception
        | some user => Except.ok user

/-- `create_user_session` (utils/auth.py): insert a fresh Session row
(1-hour expiry) and issue access (15 min) and refresh (7 days) JWTs carrying
`sub` and the opaque session token.  The freshly generated ULIDs
(`session_token`, `refresh_token`, row id) are explicit arguments. -/
def create_user_session (db : Db) (user_id : String) (now : Nat)
    (session_token refresh_tok sid : String) (ip ua : Option String) :
    Token × Token × Db :=
  let session : UserSession :=
    { id := sid
      user_id := user_id
      session_token := session_token
      refresh_token := some refresh_tok
      status := SessionStatus.active
      expires_at := now + 3600
      last_activity := now
      ip_address := ip
      user_agent := ua }
  let db2 : Db := { db with sessions := db.sessions ++ [session] }
  let data : Payload :=
    { sub := some user_id
      session_token := some session_token
      type := ""
      exp := 0
      impersonation := false
      admin_user_id := none
      impersonation_session_id := none }
  let access := create_access_token data now (some (15 * 60))
  let refresh := create_refresh_token data now (some (7 * 24 * 3600))
  (access, refresh, db2)

/-- `revoke_user_session` (utils/auth.py): look the row up by session token
(any status) and set its status to Revoked. -/
def revoke_user_session (db : Db) (session_token : String) : Db :=
  { db with
      sessions :=
        updateFirst (fun s => s.session_token == session_token)
          (fun s => { s with status := SessionStatus.revoked }) db.sessions }

/-- `get_active_sessions` (utils/auth.py): Active rows of the user whose
`expires_at` is still in the future at query time (lazy expiry). -/
def get_active_sessions (db : Db) (user_id : String) (now : Nat) : List UserSession :=
  db.sessions.filter
    (fun s => s.user_id == user_id && s.status == SessionStatus.active
      && decide (now < s.expires_at))

/-- The 403 raised by `get_admin_dependency`. -/
def admin_privileges_exception : HTTPError :=
  { status_code := 403, detail := "Admin privileges required", headers := [] }

/-- `get_admin_dependency` (utils/auth.py): resolve the caller through
`get_current_user` and require the resolved user's `is_admin` flag. -/
def get_admin_dependency (db : Db) (now : Nat) (t : Token) : Except HTTPError User :=
  match get_current_user db now t with
  | Except.error e => Except.error e
  | Except.ok u =>
    if !u.is_admin then Except.error admin_privileges_exception
    else Except.ok u

/-- The 404 raised by `create_impersonation_session` for a bad target. -/
def target_not_found_exception : HTTPError :=
  { status_code := 404, detail := "Target user not found or inactive", headers := [] }

/-- `create_impersonation_session` (utils/auth.py): require the target to
exist and be active, insert an ImpersonationSession row (2-hour ceiling),
and issue access/refresh JWTs whose claims set `sub = target_user_id` plus
`impersonation = true`, `admin_user_id` and `impersonation_session_id`.
The generated ULIDs (session token, row id) are explicit arguments. -/
def create_impersonation_session (db : Db) (admin_user_id target_user_id : String)
    (reason : Option String) (now : Nat) (session_token new_id : String) :
    Except HTTPError (Token × Token × String × Db) :=
  match findUserById db target_user_id with
  | none => Except.error target_not_found_exception
  | some target =>
    if !target.is_active then Except.error target_not_found_exception
    else
      let imp : ImpersonationSession :=
        { id := new_id
          admin_user_id := admin_user_id
          target_user_id := target_user_id
          session_token := session_token
          reason := reason
          created_at := now
          expires_at := now + 2 * 3600
          ended_at := none
          status := SessionStatus.active }
      let db2 : Db := { db with impSessions := db.impSessions ++ [imp] }
      let data : Payload :=
        { sub := some target_user_id
          session_token := some session_token
          type := ""
          exp := 0
          impersonation := true
          admin_user_id := some admin_user_id
          impersonation_session_id := some new_id }
      let access := create_access_token data now (some (15 * 60))
      let refresh := create_refresh_token data now (some (2 * 3600))
      Except.ok (access, refresh, new_id, db2)

/-- The 404 raised by `end_impersonation_session`. -/
def impersonation_not_found_exception : HTTPError :=
  { status_code := 404, detail := "Impersonation session not found", headers := [] }

/-- `end_impersonation_session` (utils/auth.py): the session must exist,
belong to the requesting admin and be Active; then stamp `ended_at` and set
status Revoked. -/
def end_impersonation_session (db : Db) (session_id admin_user_id : String) (now : Nat) :
    Except HTTPError Db :=
  let p : ImpersonationSession → Bool := fun s =>
    s.id == session_id && s.admin_user_id == admin_user_id
      && s.status == SessionStatus.active
  match db.impSessions.find? p with
  | none => Except.error impersonation_not_found_exception
  | some _ =>
    Except.ok
      { db with
          impSessions :=
            updateFirst p
              (fun s => { s with ended_at := some now, status := SessionStatus.revoked })
              db.impSessions }

/-- The distinct 401 raised when an impersonation session is dead. -/
def impersonation_expired_exception : HTTPError :=
  { status_code := 401, detail := "Impersonation session expired", headers := [] }

/-- The impersonation context dict built by
`get_current_user_with_impersonation`; `admin_user_id` is read straight from
the claims and may be absent. -/
structure ImpersonationContext where
  admin_user_id : Option String
  impersonation_session_id : String
  session_token : String
  reason : Option String
deriving Repr, DecidableEq

/-- `get_current_user_with_impersonation` (utils/auth.py): decode the token;
on `impersonation = true` with both session claims present, re-validate the
ImpersonationSession and build the context; otherwise fall back to the
ordinary-session liveness check; finally load the subject user. -/
def get_current_user_with_impersonation (db : Db) (now : Nat) (t : Token) :
    Except HTTPError (User × Option ImpersonationContext) :=
  match verify_token now t with
  | none => Except.error credentials_exception
  | some payload =>
    match payload.sub with
    | none => Except.error credentials_exception
    | some user_id =>
      let ctxCheck : Except HTTPError (Option ImpersonationContext) :=
        if payload.impersonation then
          if truthy payload.session_token && truthy payload.impersonation_session_id then
            match findImpSessionByTokenActive db (payload.session_token.getD "") with
            | none => Except.error impersonation_expired_exception
            | some imp =>
              if imp.expires_at < now then Except.error impersonation_expired_exception
              else
                Except.ok (some
                  { admin_user_id := payload.admin_user_id
                    impersonation_session_id := payload.impersonation_session_id.getD ""
                    session_token := payload.session_token.getD ""
                    reason := imp.reason })
          else Except.ok none
        else
          if truthy payload.session_token then
            match findSessionByTokenActive db (payload.session_token.getD "") with
            | none => Except.error credentials_exception
            | some s =>
              if s.expires_at < now then Except.error credentials_exception
              else Except.ok none
          else Except.ok none
      match ctxCheck with
      | Except.error e => Except.error e
      | Except.ok ctx =>
        match findUserById db user_id with
        | none => Except.error credentials_exception
        | some user => Except.ok (user, ctx)

/-- The `/auth/login` and `/auth/refresh` response body. -/
structure TokenResponse where
  access_token : Token
  refresh_token : Token
  token_type : String
  expires_in : Nat
  user_id : String
deriving Repr, DecidableEq

/-- 401 for a bad username or password (identical for both causes). -/
def invalid_credentials_exception : HTTPError :=
  { status_code := 401
    detail := "Incorrect username or password"
    headers := [("WWW-Authenticate", "Bearer")] }

/-- 400 for a disabled account at login. -/
def inactive_user_exception : HTTPError :=
  { status_code := 400, detail := "Inactive user", headers := [] }

/-- 500 when a user row has a missing id. -/
def user_id_missing_exception : HTTPError :=
  { status_code := 500, detail := "User ID is missing", headers := [] }

/-- `login` (routers/auth.py): look the user up by username; one shared 401
when the user is missing or bcrypt verification fails; 400 when inactive;
otherwise create a session and return both tokens.  `verify_password` (the
passlib/bcrypt verifier) is passed in as the Credential Verifier
collaborator; the generated ULIDs are explicit arguments. -/
def login (db : Db) (verify_password : String → String → Bool)
    (username password : String) (now : Nat) (st rt sid : String)
    (ip ua : Option String) : Except HTTPError (TokenResponse × Db) :=
  match findUserByUsername db username with
  | none => Except.error invalid_credentials_exception
  | some user =>
    if !(verify_password password user.hashed_password) then
      Except.error invalid_credentials_exception
    else if !user.is_active then Except.error inactive_user_exception
    else if user.id == "" then Except.error user_id_missing_exception
    else
      let r := create_user_session db user.id now st rt sid ip ua
      Except.ok
        ({ access_token := r.1
           refresh_token := r.2.1
           token_type := "bearer"
           expires_in := 900
           user_id := user.id }, r.2.2)

/-- 401 for a refresh token that fails decoding or the kind check. -/
def invalid_refresh_token_exception : HTTPError :=
  { status_code := 401, detail := "Invalid refresh token", headers := [] }

/-- 401 when the session correlated to a refresh token is dead. -/
def session_expired_exception : HTTPError :=
  { status_code := 401, detail := "Session expired", headers := [] }

/-- `refresh_token` (routers/auth.py): decode, require `type = "refresh"`
and truthy `sub`/`session_token` claims, require the correlated session to
be Active and unexpired, then mint a new access token (default 15-minute
lifetime) bound to the same session token; the session row is not written. -/
def refresh_token (db : Db) (now : Nat) (t : Token) :
    Except HTTPError (TokenResponse × Db) :=
  match verify_token now t with
  | none => Except.error invalid_refresh_token_exception
  | some payload =>
    if !(payload.type == "refresh") then Except.error invalid_refresh_token_exception
    else if !(truthy payload.sub && truthy payload.session_token) then
      Except.error invalid_refresh_token_exception
    else
      match findSessionByTokenActive db (payload.session_token.getD "") with
      | none => Except.error session_expired_exception
      | some s =>
        if s.expires_at < now then Except.error session_expired_exception
        else
          let data : Payload :=
            { sub := payload.sub
              session_token := payload.session_token
              type := ""
              exp := 0
              impersonation := false
              admin_user_id := none
              impersonation_session_id := none }
          let access := create_access_token data now none
          Except.ok
            ({ access_token := access
               refresh_token := t
               token_type := "bearer"
               expires_in := 900
               user_id := payload.sub.getD "" }, db)

/-- `logout` (routers/auth.py): authenticates the caller and returns a
success message; the handler body performs no session mutation (its comment
defers revocation to "a real implementation"). -/
def logout (db : Db) (now : Nat) (t : Token) : Except HTTPError (String × Db) :=
  match get_current_user db now t with
  | Except.error e => Except.error e
  | Except.ok _ => Except.ok ("Successfully logged out", db)

/-- 404 when `DELETE /auth/sessions/id` finds no owned session. -/
def session_not_found_exception : HTTPError :=
  { status_code := 404, detail := "Session not found", headers := [] }

/-- `revoke_session` (routers/auth.py, `DELETE /auth/sessions/id`): find the
caller's session row by id (any status) and set it Revoked; 404 otherwise. -/
def revoke_session (db : Db) (now : Nat) (t : Token) (session_id : String) :
    Except HTTPError (String × Db) :=
  match get_current_user db now t with
  | Except.error e => Except.error e
  | Except.ok current_user =>
    let p : UserSession → Bool := fun s =>
      s.id == session_id && s.user_id == current_user.id
    match db.sessions.find? p with
    | none => Except.error session_not_found_exception
    | some _ =>
      Except.ok ("Session revoked successfully",
        { db with
            sessions :=
              updateFirst p (fun s => { s with status := SessionStatus.revoked })
                db.sessions })

/-- `revoke_all_sessions` (routers/auth.py, `DELETE /auth/sessions`): set
every currently-live session of the caller to Revoked. -/
def revoke_all_sessions (db : Db) (now : Nat) (t : Token) :
    Except HTTPError (String × Db) :=
  match get_current_user db now t with
  | Except.error e => Except.error e
  | Except.ok current_user =>
    if current_user.id == "" then Except.error user_id_missing_exception
    else
      Except.ok ("Revoked sessions",
        { db with
            sessions :=
              db.sessions.map (fun s =>
                if s.user_id == current_user.id && s.status == SessionStatus.active
                    && decide (now < s.expires_at) then
                  { s with status := SessionStatus.revoked }
                else s) })

/-- The `/auth/impersonations` response body. -/
structure ImpersonateResponse where
  access_token : Token
  refresh_token : Token
  token_type : String
  expires_in : Nat
  target_user_id : String
  admin_user_id : String
  impersonation_session_id : String
deriving Repr, DecidableEq

/-- 500 when the resolved admin's id is missing. -/
def admin_id_missing_exception : HTTPError :=
  { status_code := 500, detail := "Admin user ID is missing", headers := [] }

/-- 400 for self-impersonation. -/
def self_impersonation_exception : HTTPError :=
  { status_code := 400, detail := "Cannot impersonate yourself", headers := [] }

/-- `start_impersonation` (routers/auth.py): the body of the admin-gated
`POST /auth/impersonations` route after its `get_admin_dependency` has
resolved `admin_user` — reject self-impersonation, then delegate to
`create_impersonation_session`. -/
def start_impersonation (db : Db) (admin_user : User) (target_user_id : String)
    (reason : Option String) (now : Nat) (session_token new_id : String) :
    Except HTTPError (ImpersonateResponse × Db) :=
  if admin_user.id == "" then Except.error admin_id_missing_exception
  else if admin_user.id == target_user_id then Except.error self_impersonation_exception
  else
    match create_impersonation_session db admin_user.id target_user_id reason now
        session_token new_id with
    | Except.error e => Except.error e
    | Except.ok (access, refresh, sid, db2) =>
      Except.ok
        ({ access_token := access
           refresh_token := refresh
           token_type := "bearer"
           expires_in := 900
           target_user_id := target_user_id
           admin_user_id := admin_user.id
           impersonation_session_id := sid }, db2)

/-- 400 when `DELETE /auth/impersonations` is called without a session id. -/
def impersonation_id_required_exception : HTTPError :=
  { status_code := 400, detail := "Impersonation session ID required", headers := [] }

/-- `end_impersonation` (routers/auth.py): the body of the admin-gated
`DELETE /auth/impersonations` route after its dependency has resolved
`admin_user`. -/
def end_impersonation (db : Db) (admin_user : User)
    (impersonation_session_id : Option String) (now : Nat) :
    Except HTTPError (String × Db) :=
  if admin_user.id == "" then Except.error admin_id_missing_exception
  else
    if !(truthy impersonation_session_id) then
      Except.error impersonation_id_required_exception
    else
      match end_impersonation_session db (impersonation_session_id.getD "")
          admin_user.id now with
      | Except.error e => Except.error e
      | Except.ok db2 => Except.ok ("Impersonation session ended successfully", db2)

/-! ### Concrete stores and tokens used to instantiate the theorems -/

/-- C1 store: one user with one Active session. -/
def dbC1 : Db where
  users := [{ id := "u1"
              username := "alice"
              email := "alice@x.test"
              is_active := true
              is_admin := false
              hashed_password := "h1" }]
  sessions := [{ id := "s1"
                 user_id := "u1"
                 session_token := "st1"
                 refresh_token := some "rt1"
                 status := SessionStatus.active
                 expires_at := 1000
                 last_activity := 0
                 ip_address := none
                 user_agent := none }]
  impSessions := []

/-- C1 token: signature-valid unexpired access token bound to session `st1`. -/
def tokC1 : Token where
  payload := { sub := some "u1"
               session_token := some "st1"
               type := "access"
               exp := 900
               impersonation := false
               admin_user_id := none
               impersonation_session_id := none }
  signedWithKey := true

/-- C2 admin user. -/
def adminA2 : User where
  id := "a1"
  username := "admin"
  email := "admin@x.test"
  is_active := true
  is_admin := true
  hashed_password := "h2"

/-- C2 non-admin impersonation target. -/
def targetT2 : User where
  id := "t1"
  username := "bob"
  email := "bob@x.test"
  is_active := true
  is_admin := false
  hashed_password := "h3"

/-- C2 store: the admin's ordinary session and a live impersonation session
of the non-admin target. -/
def dbC2 : Db where
  users := [adminA2, targetT2]
  sessions := [{ id := "s2"
                 user_id := "a1"
                 session_token := "astok"
                 refresh_token := some "r2"
                 status := SessionStatus.active
                 expires_at := 1000
                 last_activity := 0
                 ip_address := none
                 user_agent := none }]
  impSessions := [{ id := "imp1"
                    admin_user_id := "a1"
                    target_user_id := "t1"
                    session_token := "itok"
                    reason := none
                    created_at := 0
                    expires_at := 1000
                    ended_at := none
                    status := SessionStatus.active }]

/-- C2 impersonation access token issued for the session above. -/
def impTokC2 : Token where
  payload := { sub := some "t1"
               session_token := some "itok"
               type := "access"
               exp := 900
               impersonation := true
               admin_user_id := some "a1"
               impersonation_session_id := some "imp1" }
  signedWithKey := true

/-- C2 the admin's own ordinary access token. -/
def adminTokC2 : Token where
  payload := { sub := some "a1"
               session_token := some "astok"
               type := "access"
               exp := 900
               impersonation := false
               admin_user_id := none
               impersonation_session_id := none }
  signedWithKey := true

/-- C2 the impersonation context the resolver produces for `impTokC2`. -/
def ctxC2 : ImpersonationContext where
  admin_user_id := some "a1"
  impersonation_session_id := "imp1"
  session_token := "itok"
  reason := none

/-- C3 user. -/
def userC3 : User where
  id := "u3"
  username := "carol"
  email := "carol@x.test"
  is_active := true
  is_admin := false
  hashed_password := "h4"

/-- C3 the caller's Active session. -/
def sessC3 : UserSession where
  id := "s3"
  user_id := "u3"
  session_token := "st3"
  refresh_token := some "r3"
  status := SessionStatus.active
  expires_at := 1000
  last_activity := 0
  ip_address := none
  user_agent := none

/-- C3 store. -/
def dbC3 : Db := { users := [userC3], sessions := [sessC3], impSessions := [] }

/-- C3 the caller's access token. -/
def tokC3 : Token where
  payload := { sub := some "u3"
               session_token := some "st3"
               type := "access"
               exp := 900
               impersonation := false
               admin_user_id := none
               impersonation_session_id := none }
  signedWithKey := true

/-- C4 admin user. -/
def adminA4 : User where
  id := "a4"
  username := "root"
  email := "root@x.test"
  is_active := true
  is_admin := true
  hashed_password := "h5"

/-- C4 active non-admin target. -/
def targetT4 : User where
  id := "t4"
  username := "dave"
  email := "dave@x.test"
  is_active := true
  is_admin := false
  hashed_password := "h6"

/-- C4 store. -/
def dbC4 : Db := { users := [adminA4, targetT4], sessions := [], impSessions := [] }

/-- C5 subject user. -/
def userC5 : User where
  id := "u5"
  username := "erin"
  email := "erin@x.test"
  is_active := true
  is_admin := false
  hashed_password := "h7"

/-- C5 an unrelated session row (never consulted). -/
def sessRowC5 : UserSession where
  id := "s5"
  user_id := "u5"
  session_token := "st5"
  refresh_token := some "r5"
  status := SessionStatus.revoked
  expires_at := 1000
  last_activity := 0
  ip_address := none
  user_agent := none

/-- C5 an unrelated impersonation row (never consulted). -/
def impRowC5 : ImpersonationSession where
  id := "imp5"
  admin_user_id := "a5"
  target_user_id := "u5"
  session_token := "it5"
  reason := none
  created_at := 0
  expires_at := 1000
  ended_at := none
  status := SessionStatus.revoked

/-- C5 token: `impersonation = true` but no session claims at all. -/
def tokC5 : Token where
  payload := { sub := some "u5"
               session_token := none
               type := "access"
               exp := 900
               impersonation := true
               admin_user_id := some "a5"
               impersonation_session_id := none }
  signedWithKey := true

/-- C6 the Active impersonation session to end. -/
def impSessC6 : ImpersonationSession where
  id := "imp6"
  admin_user_id := "a6"
  target_user_id := "t6"
  session_token := "it6"
  reason := some "debug"
  created_at := 0
  expires_at := 1000
  ended_at := none
  status := SessionStatus.active

/-- C6 store. -/
def dbC6 : Db := { users := [], sessions := [], impSessions := [impSessC6] }

/-- C6 token correlated to the impersonation session. -/
def tokC6 : Token where
  payload := { sub := some "t6"
               session_token := some "it6"
               type := "access"
               exp := 900
               impersonation := true
               admin_user_id := some "a6"
               impersonation_session_id := some "imp6" }
  signedWithKey := true

/-- C7 store: one user with one Active session. -/
def dbC7 : Db where
  users := [{ id := "u7"
              username := "frank"
              email := "frank@x.test"
              is_active := true
              is_admin := false
              hashed_password := "h8" }]
  sessions := [{ id := "s7"
                 user_id := "u7"
                 session_token := "st7"
                 refresh_token := some "r7"
                 status := SessionStatus.active
                 expires_at := 1000
                 last_activity := 0
                 ip_address := none
                 user_agent := none }]
  impSessions := []

/-- C8 store (empty; refresh rejects the access token before any lookup). -/
def dbC8 : Db := { users := [], sessions := [], impSessions := [] }

/-- C8 a signature-valid unexpired token of kind `access`. -/
def tokC8 : Token where
  payload := { sub := some "u8"
               session_token := some "st8"
               type := "access"
               exp := 900
               impersonation := false
               admin_user_id := none
               impersonation_session_id := none }
  signedWithKey := true

/-- C9 store: one Active unexpired session. -/
def dbC9 : Db where
  users := [{ id := "u9"
              username := "grace"
              email := "grace@x.test"
              is_active := true
              is_admin := false
              hashed_password := "h9" }]
  sessions := [{ id := "s9"
                 user_id := "u9"
                 session_token := "st9"
                 refresh_token := some "r9"
                 status := SessionStatus.active
                 expires_at := 10000
                 last_activity := 0
                 ip_address := none
                 user_agent := none }]
  impSessions := []

/-- C9 a valid refresh token bound to session `st9`. -/
def tokC9 : Token where
  payload := { sub := some "u9"
               session_token := some "st9"
               type := "refresh"
               exp := 100000
               impersonation := false
               admin_user_id := none
               impersonation_session_id := none }
  signedWithKey := true

/-- C9 the response a valid refresh at time 10 produces. -/
def refreshRespC9 : TokenResponse where
  access_token := create_access_token
    { sub := some "u9"
      session_token := some "st9"
      type := ""
      exp := 0
      impersonation := false
      admin_user_id := none
      impersonation_session_id := none } 10 none
  refresh_token := tokC9
  token_type := "bearer"
  expires_in := 900
  user_id := "u9"

/-- C10 the one existing user. -/
def userC10 : User where
  id := "u10"
  username := "alice10"
  email := "alice10@x.test"
  is_active := true
  is_admin := false
  hashed_password := "hp10"

/-- C10 store. -/
def dbC10 : Db := { users := [userC10], sessions := [], impSessions := [] }

/-! Route results are compared by decidable equality in the concrete
instantiations below. -/
deriving instance DecidableEq for Except

/-- One allowed step of session-status movement: unchanged, or Active to
Revoked/Expired. -/
def statusMono (a b : SessionStatus) : Prop :=
  b = a ∨ (a = SessionStatus.active
    ∧ (b = SessionStatus.revoked ∨ b = SessionStatus.expired))

/-- Row-level monotonicity for ordinary sessions: same row id, status moved
monotonically. -/
def sessionRowMono (s s2 : UserSession) : Prop :=
  s2.id = s.id ∧ statusMono s.status s2.status

/-- Row-level monotonicity for impersonation sessions. -/
def impRowMono (s s2 : ImpersonationSession) : Prop :=
  s2.id = s.id ∧ statusMono s.status s2.status

/-- `listMono R l l2`: `l2` keeps every row of `l` at its position (rows are
only updated in place or appended, never deleted or reordered) and each kept
row is `R`-related to its old value. -/
def listMono (R : α → α → Prop) (l l2 : List α) : Prop :=
  List.Forall₂ R l (l2.take l.length)

/-- Invariant of every store state the core can reach: no row carries the
Expired status, because no operation of the core ever writes it (expiry is
evaluated lazily at read time). -/
def noExpiredStatus (db : Db) : Prop :=
  (∀ s ∈ db.sessions, s.status ≠ SessionStatus.expired)
    ∧ (∀ s ∈ db.impSessions, s.status ≠ SessionStatus.expired)

/-- One invocation of an operation of the auth core, with all request data
and generated ULIDs packaged in the constructor. -/
inductive CoreOp where
  | loginOp (verify : String → String → Bool) (username password : String)
      (now : Nat) (st rt sid : String) (ip ua : Option String)
  | refreshOp (now : Nat) (t : Token)
  | logoutOp (now : Nat) (t : Token)
  | revokeUserSessionOp (st : String)
  | revokeSessionOp (now : Nat) (t : Token) (session_id : String)
  | revokeAllSessionsOp (now : Nat) (t : Token)
  | startImpersonationOp (admin : User) (target : String) (reason : Option String)
      (now : Nat) (stok sid : String)
  | endImpersonationOp (admin : User) (sid : Option String) (now : Nat)

/-- The store component of a route result: the new store on success, the
given (unchanged) store when the route raised before writing. -/
def dbAfter (r : Except HTTPError (β × Db)) (db : Db) : Db :=
  match r with
  | Except.ok x => x.2
  | Except.error _ => db

/-- The store after one operation: the new store on success, the unchanged
store when the operation raises (every route raises before any write). -/
def applyOp (op : CoreOp) (db : Db) : Db :=
  match op with
  | CoreOp.loginOp v un pw now st rt sid ip ua =>
    dbAfter (login db v un pw now st rt sid ip ua) db
  | CoreOp.refreshOp now t => dbAfter (refresh_token db now t) db
  | CoreOp.logoutOp now t => dbAfter (logout db now t) db
  | CoreOp.revokeUserSessionOp st => revoke_user_session db st
  | CoreOp.revokeSessionOp now t sid => dbAfter (revoke_session db now t sid) db
  | CoreOp.revokeAllSessionsOp now t => dbAfter (revoke_all_sessions db now t) db
  | CoreOp.startImpersonationOp a target reason now stok sid =>
    dbAfter (start_impersonation db a target reason now stok sid) db
  | CoreOp.endImpersonationOp a sid now => dbAfter (end_impersonation db a sid now) db

/-- Run a sequence of core operations against the store. -/
def runOps (ops : List CoreOp) (db : Db) : Db :=
  ops.foldl (fun d o => applyOp o d) db

/-- C7 operation sequence: revoke the session by token. -/
def opsC7 : List CoreOp := [CoreOp.revokeUserSessionOp "st7"]

/-! ### Helper lemmas about the list-level store operations -/

/-- `updateFirst` preserves length. -/
theorem updateFirst_length (p : α → Bool) (f : α → α) (l : List α) :
    (updateFirst p f l).length = l.length := by
  induction l with
  | nil => rfl
  | cons x xs ih =>
    by_cases hx : p x = true
    · simp [updateFirst, hx]
    · simp [updateFirst, hx, ih]

/-- A `find?` over sessions keyed by token fails when no row carries the
token, whatever the status conjunct says. -/
theorem find?_active_eq_none_of_no_token (l : List UserSession) (st : String)
    (h : ∀ y ∈ l, (y.session_token == st) = false) :
    l.find? (fun s => s.session_token == st && s.status == SessionStatus.active) = none :=
  List.find?_eq_none.mpr (fun y hy => by simp [h y hy])

/-- If at most one session row carries a token, revoking by that token
leaves no Active row carrying it. -/
theorem find?_active_after_updateFirst_revoke (l : List UserSession) (st : String)
    (h : (l.filter (fun s => s.session_token == st)).length ≤ 1) :
    (updateFirst (fun s => s.session_token == st)
        (fun s => { s with status := SessionStatus.revoked }) l).find?
      (fun s => s.session_token == st && s.status == SessionStatus.active) = none := by
  induction l with
  | nil => rfl
  | cons x xs ih =>
    cases hx : (x.session_token == st) with
    | true =>
      have hlen : (xs.filter (fun s => s.session_token == st)).length = 0 := by
        simp only [List.filter_cons, hx, if_true, List.length_cons] at h
        omega
      have hxs : ∀ y ∈ xs, (y.session_token == st) = false := by
        intro y hy
        have := List.filter_eq_nil_iff.mp (List.length_eq_zero.mp hlen) y hy
        simpa using this
      have hstep : updateFirst (fun s => s.session_token == st)
          (fun s => { s with status := SessionStatus.revoked }) (x :: xs)
          = { x with status := SessionStatus.revoked } :: xs := by
        simp [updateFirst, hx]
      rw [hstep, List.find?_cons_of_neg _ (by simp)]
      exact find?_active_eq_none_of_no_token xs st hxs
    | false =>
      have h' : (xs.filter (fun s => s.session_token == st)).length ≤ 1 := by
        simpa only [List.filter_cons, hx, if_false] using h
      have hstep : updateFirst (fun s => s.session_token == st)
          (fun s => { s with status := SessionStatus.revoked }) (x :: xs)
          = x :: updateFirst (fun s => s.session_token == st)
              (fun s => { s with status := SessionStatus.revoked }) xs := by
        simp [updateFirst, hx]
      rw [hstep, List.find?_cons_of_neg _ (by simp [hx])]
      exact ih h'

/-- C1: once an ordinary session is Revoked, any still-signature-valid,
unexpired token carrying that session's token claim fails identity
resolution with the 401 `credentials_exception` — through both resolvers;
a valid signature and future `exp` alone do not suffice. -/
theorem revoked_session_rejects_valid_tokens
    (db : Db) (now : Nat) (t : Token) (st : String)
    (hsig : t.signedWithKey = true) (hexp : now ≤ t.payload.exp)
    (hst : t.payload.session_token = some st) (hne : (st == "") = false)
    (himp : t.payload.impersonation = false)
    (huniq : (db.sessions.filter (fun s => s.session_token == st)).length ≤ 1) :
    get_current_user (revoke_user_session db st) now t
        = Except.error credentials_exception ∧
      get_current_user_with_impersonation (revoke_user_session db st) now t
        = Except.error credentials_exception ∧
      credentials_exception.status_code = 401 := by
  have hfind :
      findSessionByTokenActive (revoke_user_session db st) st = none := by
    unfold findSessionByTokenActive revoke_user_session
    exact find?_active_after_updateFirst_revoke db.sessions st huniq
  have hver : verify_token now t = some t.payload := by
    unfold verify_token
    simp [hsig, hexp]
  refine ⟨?_, ?_, rfl⟩
  · cases hsub : t.payload.sub with
    | none => simp [get_current_user, hver, hsub]
    | some uid => simp [get_current_user, hver, hsub, hst, truthy, hne, hfind]
  · cases hsub : t.payload.sub with
    | none => simp [get_current_user_with_impersonation, hver, hsub]
    | some uid =>
      simp [get_current_user_with_impersonation, hver, hsub, himp, hst, truthy,
        hne, hfind]

/-- `statusMono` is reflexive. -/
theorem statusMono_refl (a : SessionStatus) : statusMono a a := Or.inl rfl

/-- `statusMono` is transitive. -/
theorem statusMono_trans {a b c : SessionStatus}
    (hab : statusMono a b) (hbc : statusMono b c) : statusMono a c := by
  rcases hab with h1 | ⟨h1, h2⟩
  · rcases hbc with g1 | ⟨g1, g2⟩
    · exact Or.inl (h1 ▸ g1)
    · exact Or.inr ⟨h1 ▸ g1, g2⟩
  · rcases hbc with g1 | ⟨g1, g2⟩
    · exact Or.inr ⟨h1, g1 ▸ h2⟩
    · rcases h2 with h2 | h2 <;> rw [h2] at g1 <;> cases g1


/-- `listMono` is reflexive for a reflexive row relation. -/
theorem listMono_refl {R : α → α → Prop} (hR : ∀ a, R a a) (l : List α) :
    listMono R l l := by
  unfold listMono
  rw [List.take_length]
  exact List.forall₂_same.mpr (fun x _ => hR x)

/-- `Forall₂` composes along a transitive relation. -/
theorem forall₂_comp_of_trans {R : α → α → Prop} (hR : ∀ a b c, R a b → R b c → R a c)
    {l1 l2 l3 : List α} (h12 : List.Forall₂ R l1 l2) (h23 : List.Forall₂ R l2 l3) :
    List.Forall₂ R l1 l3 := by
  induction h12 generalizing l3 with
  | nil =>
    cases h23
    constructor
  | cons hab h ih =>
    cases h23 with
    | cons hbc h2 => exact List.Forall₂.cons (hR _ _ _ hab hbc) (ih h2)

/-- `listMono` composes along a transitive row relation. -/
theorem listMono_trans {R : α → α → Prop} (hR : ∀ a b c, R a b → R b c → R a c)
    {l l2 l3 : List α} (h12 : listMono R l l2) (h23 : listMono R l2 l3) :
    listMono R l l3 := by
  unfold listMono at h12 h23 ⊢
  have hlen : l.length ≤ l2.length := by
    have := h12.length_eq
    rw [List.length_take] at this
    omega
  have h23t : List.Forall₂ R (l2.take l.length) ((l3.take l2.length).take l.length) :=
    List.forall₂_take l.length h23
  rw [List.take_take, min_eq_left hlen] at h23t
  exact forall₂_comp_of_trans hR h12 h23t

/-- Appending rows keeps every old row in place. -/
theorem listMono_append {R : α → α → Prop} (hR : ∀ a, R a a) (l l2 : List α) :
    listMono R l (l ++ l2) := by
  unfold listMono
  rw [List.take_left]
  exact List.forall₂_same.mpr (fun x _ => hR x)

/-- `updateFirst` relates old and new lists pointwise. -/
theorem forall₂_updateFirst {R : α → α → Prop} (p : α → Bool) (f : α → α) :
    ∀ (l : List α), (∀ a ∈ l, R a a) → (∀ a ∈ l, p a = true → R a (f a)) →
      List.Forall₂ R l (updateFirst p f l)
  | [], _, _ => List.Forall₂.nil
  | x :: xs, hR, hf => by
    cases hx : p x with
    | true =>
      have hstep : updateFirst p f (x :: xs) = f x :: xs := by simp [updateFirst, hx]
      rw [hstep]
      exact List.Forall₂.cons (hf x (List.mem_cons_self x xs) hx)
        (List.forall₂_same.mpr (fun y hy => hR y (List.mem_cons_of_mem x hy)))
    | false =>
      have hstep : updateFirst p f (x :: xs) = x :: updateFirst p f xs := by
        simp [updateFirst, hx]
      rw [hstep]
      exact List.Forall₂.cons (hR x (List.mem_cons_self x xs))
        (forall₂_updateFirst p f xs
          (fun a ha => hR a (List.mem_cons_of_mem x ha))
          (fun a ha hpa => hf a (List.mem_cons_of_mem x ha) hpa))

/-- `listMono` for an in-place `updateFirst`. -/
theorem listMono_updateFirst {R : α → α → Prop} (p : α → Bool) (f : α → α)
    (l : List α) (hR : ∀ a ∈ l, R a a) (hf : ∀ a ∈ l, p a = true → R a (f a)) :
    listMono R l (updateFirst p f l) := by
  unfold listMono
  have hlen : (updateFirst p f l).length = l.length := updateFirst_length p f l
  rw [← hlen, List.take_length]
  exact forall₂_updateFirst p f l hR hf

/-- Pointwise map relates old and new lists. -/
theorem forall₂_map_self {R : α → α → Prop} (g : α → α) :
    ∀ (l : List α), (∀ a ∈ l, R a (g a)) → List.Forall₂ R l (l.map g)
  | [], _ => List.Forall₂.nil
  | x :: xs, hg =>
    List.Forall₂.cons (hg x (List.mem_cons_self x xs))
      (forall₂_map_self g xs (fun a ha => hg a (List.mem_cons_of_mem x ha)))

/-- `listMono` for a pointwise map. -/
theorem listMono_map {R : α → α → Prop} (g : α → α) (l : List α)
    (hg : ∀ a ∈ l, R a (g a)) : listMono R l (l.map g) := by
  unfold listMono
  rw [← List.length_map l g, List.take_length]
  exact forall₂_map_self g l hg

/-- Membership after `updateFirst`: an old row or the image of an old row. -/
theorem mem_updateFirst {p : α → Bool} {f : α → α} :
    ∀ {l : List α} {y : α}, y ∈ updateFirst p f l → y ∈ l ∨ ∃ x, x ∈ l ∧ y = f x := by
  intro l
  induction l with
  | nil =>
    intro y h
    cases h
  | cons x xs ih =>
    intro y h
    cases hx : p x with
    | true =>
      rw [show updateFirst p f (x :: xs) = f x :: xs by simp [updateFirst, hx]] at h
      rcases List.mem_cons.mp h with h | h
      · exact Or.inr ⟨x, List.mem_cons_self x xs, h⟩
      · exact Or.inl (List.mem_cons_of_mem x h)
    | false =>
      rw [show updateFirst p f (x :: xs) = x :: updateFirst p f xs by
        simp [updateFirst, hx]] at h
      rcases List.mem_cons.mp h with h | h
      · exact Or.inl (h ▸ List.mem_cons_self x xs)
      · rcases ih h with h2 | ⟨z, hz, hy⟩
        · exact Or.inl (List.mem_cons_of_mem x h2)
        · exact Or.inr ⟨z, List.mem_cons_of_mem x hz, hy⟩

/-- A successful `login` changes the store by exactly one appended Active
session row. -/
theorem login_ok_db (db : Db) (v : String → String → Bool) (un pw : String)
    (now : Nat) (st rt sid : String) (ip ua : Option String)
    (r : TokenResponse × Db) (h : login db v un pw now st rt sid ip ua = Except.ok r) :
    ∃ row : UserSession, r.2 = { db with sessions := db.sessions ++ [row] }
      ∧ row.status = SessionStatus.active := by
  unfold login at h
  cases hu : findUserByUsername db un with
  | none =>
    rw [hu] at h
    cases h
  | some user =>
    rw [hu] at h
    cases hv : v pw user.hashed_password with
    | false => simp [hv] at h
    | true =>
      cases hact : user.is_active with
      | false => simp [hv, hact] at h
      | true =>
        cases hid : user.id == "" with
        | true => simp [hv, hact, hid] at h
        | false =>
          simp only [hv, hact, hid, Bool.not_true, Bool.not_false, if_false, if_true,
            Bool.false_eq_true, Bool.true_eq_false, create_user_session] at h
          injection h with h2
          subst h2
          exact ⟨_, rfl, rfl⟩

/-- A successful `refresh_token` leaves the store unchanged. -/
theorem refresh_token_ok_db (db : Db) (now : Nat) (t : Token)
    (r : TokenResponse × Db) (h : refresh_token db now t = Except.ok r) :
    r.2 = db := by
  unfold refresh_token at h
  cases hv : verify_token now t with
  | none =>
    rw [hv] at h
    cases h
  | some payload =>
    rw [hv] at h
    cases hty : payload.type == "refresh" with
    | false => simp [hty] at h
    | true =>
      cases htr : truthy payload.sub && truthy payload.session_token with
      | false => simp [hty, htr] at h
      | true =>
        cases hs : findSessionByTokenActive db (payload.session_token.getD "") with
        | none => simp [hty, htr, hs] at h
        | some s =>
          cases hexp : decide (s.expires_at < now) with
          | true => simp [hty, htr, hs, of_decide_eq_true hexp] at h
          | false =>
            simp only [hty, htr, hs, Bool.not_true, Bool.false_eq_true, if_false,
              if_true, of_decide_eq_false hexp] at h
            injection h with h2
            subst h2
            rfl

/-- A successful `logout` leaves the store unchanged. -/
theorem logout_ok_db (db : Db) (now : Nat) (t : Token)
    (r : String × Db) (h : logout db now t = Except.ok r) : r.2 = db := by
  unfold logout at h
  cases hg : get_current_user db now t with
  | error e =>
    rw [hg] at h
    cases h
  | ok u =>
    rw [hg] at h
    cases h
    rfl

/-- A successful `revoke_session` changes the store by revoking (in place)
the first owned session row with the requested id. -/
theorem revoke_session_ok_db (db : Db) (now : Nat) (t : Token) (sid : String)
    (r : String × Db) (h : revoke_session db now t sid = Except.ok r) :
    ∃ uid, r.2 = { db with
        sessions :=
          updateFirst (fun s => s.id == sid && s.user_id == uid)
            (fun s => { s with status := SessionStatus.revoked }) db.sessions } := by
  unfold revoke_session at h
  cases hg : get_current_user db now t with
  | error e =>
    rw [hg] at h
    cases h
  | ok u =>
    rw [hg] at h
    cases hf : db.sessions.find? (fun s => s.id == sid && s.user_id == u.id) with
    | none => simp [hf] at h
    | some s =>
      simp only [hf] at h
      injection h with h2
      subst h2
      exact ⟨u.id, rfl⟩

/-- A successful `revoke_all_sessions` maps the caller's live rows to
Revoked in place. -/
theorem revoke_all_sessions_ok_db (db : Db) (now : Nat) (t : Token)
    (r : String × Db) (h : revoke_all_sessions db now t = Except.ok r) :
    ∃ uid, r.2 = { db with sessions := db.sessions.map (fun s =>
      if s.user_id == uid && s.status == SessionStatus.active
          && decide (now < s.expires_at) then
        { s with status := SessionStatus.revoked }
      else s) } := by
  unfold revoke_all_sessions at h
  cases hg : get_current_user db now t with
  | error e =>
    rw [hg] at h
    cases h
  | ok u =>
    rw [hg] at h
    cases hid : u.id == "" with
    | true => simp [hid] at h
    | false =>
      simp only [hid, Bool.false_eq_true, if_false] at h
      injection h with h2
      subst h2
      exact ⟨u.id, rfl⟩

/-- A successful `start_impersonation` changes the store by exactly one
appended Active impersonation row. -/
theorem start_impersonation_ok_db (db : Db) (a : User) (target : String)
    (reason : Option String) (now : Nat) (stok sid : String)
    (r : ImpersonateResponse × Db)
    (h : start_impersonation db a target reason now stok sid = Except.ok r) :
    ∃ row : ImpersonationSession, r.2 = { db with impSessions := db.impSessions ++ [row] }
      ∧ row.status = SessionStatus.active := by
  unfold start_impersonation create_impersonation_session at h
  cases hid : a.id == "" with
  | true => simp [hid] at h
  | false =>
    cases hself : a.id == target with
    | true => simp [hid, hself] at h
    | false =>
      cases ht : findUserById db target with
      | none => simp [hid, hself, ht] at h
      | some tu =>
        cases hact : tu.is_active with
        | false => simp [hid, hself, ht, hact] at h
        | true =>
          simp only [hid, hself, ht, hact, Bool.false_eq_true, Bool.not_true,
            if_false, if_true] at h
          injection h with h2
          subst h2
          exact ⟨_, rfl, rfl⟩

/-- A successful `end_impersonation` revokes (in place) the first Active
impersonation row with the requested id owned by the requesting admin. -/
theorem end_impersonation_ok_db (db : Db) (a : User) (sid : Option String)
    (now : Nat) (r : String × Db) (h : end_impersonation db a sid now = Except.ok r) :
    r.2 = { db with
        impSessions :=
          updateFirst (fun s => s.id == sid.getD "" && s.admin_user_id == a.id
              && s.status == SessionStatus.active)
            (fun s => { s with ended_at := some now, status := SessionStatus.revoked })
            db.impSessions } := by
  unfold end_impersonation end_impersonation_session at h
  cases hid : a.id == "" with
  | true => simp [hid] at h
  | false =>
    cases htr : truthy sid with
    | false => simp [hid, htr] at h
    | true =>
      cases hf : db.impSessions.find? (fun s => s.id == sid.getD ""
          && s.admin_user_id == a.id && s.status == SessionStatus.active) with
      | none => simp [hid, htr, hf] at h
      | some s =>
        simp only [hid, htr, hf, Bool.false_eq_true, Bool.not_true, if_false,
          if_true] at h
        injection h with h2
        subst h2
        rfl

/-- `sessionRowMono` is reflexive. -/
theorem sessionRowMono_refl (s : UserSession) : sessionRowMono s s :=
  ⟨rfl, statusMono_refl _⟩

/-- `impRowMono` is reflexive. -/
theorem impRowMono_refl (s : ImpersonationSession) : impRowMono s s :=
  ⟨rfl, statusMono_refl _⟩

/-- `sessionRowMono` is transitive. -/
theorem sessionRowMono_trans (a b c : UserSession)
    (hab : sessionRowMono a b) (hbc : sessionRowMono b c) : sessionRowMono a c :=
  ⟨hbc.1.trans hab.1, statusMono_trans hab.2 hbc.2⟩

/-- `impRowMono` is transitive. -/
theorem impRowMono_trans (a b c : ImpersonationSession)
    (hab : impRowMono a b) (hbc : impRowMono b c) : impRowMono a c :=
  ⟨hbc.1.trans hab.1, statusMono_trans hab.2 hbc.2⟩

/-- Moving any non-Expired status to Revoked is a monotone step. -/
theorem statusMono_to_revoked {a : SessionStatus} (h : a ≠ SessionStatus.expired) :
    statusMono a SessionStatus.revoked := by
  cases a with
  | active => exact Or.inr ⟨rfl, Or.inl rfl⟩
  | revoked => exact Or.inl rfl
  | expired => exact absurd rfl h

/-- One core operation: the no-Expired-status invariant is preserved and
every surviving row's status moves monotonically. -/
theorem applyOp_mono (op : CoreOp) (db : Db) (hdb : noExpiredStatus db) :
    noExpiredStatus (applyOp op db)
      ∧ listMono sessionRowMono db.sessions (applyOp op db).sessions
      ∧ listMono impRowMono db.impSessions (applyOp op db).impSessions := by
  obtain ⟨hs, hi⟩ := hdb
  have hkeep : noExpiredStatus db ∧ listMono sessionRowMono db.sessions db.sessions
      ∧ listMono impRowMono db.impSessions db.impSessions :=
    ⟨⟨hs, hi⟩, listMono_refl sessionRowMono_refl _, listMono_refl impRowMono_refl _⟩
  cases op with
  | loginOp v un pw now st rt sid ip ua =>
    simp only [applyOp]
    cases hres : login db v un pw now st rt sid ip ua with
    | error e => exact hkeep
    | ok r =>
      simp only [dbAfter]
      obtain ⟨row, hdb2, hrow⟩ := login_ok_db _ _ _ _ _ _ _ _ _ _ _ hres
      rw [hdb2]
      refine ⟨⟨?_, hi⟩, listMono_append sessionRowMono_refl _ _,
        listMono_refl impRowMono_refl _⟩
      intro s hsmem
      rcases List.mem_append.mp hsmem with hmem | hmem
      · exact hs s hmem
      · rw [List.mem_singleton.mp hmem, hrow]
        intro hcontra
        cases hcontra
  | refreshOp now t =>
    simp only [applyOp]
    cases hres : refresh_token db now t with
    | error e => exact hkeep
    | ok r =>
      simp only [dbAfter]
      rw [refresh_token_ok_db _ _ _ _ hres]
      exact hkeep
  | logoutOp now t =>
    simp only [applyOp]
    cases hres : logout db now t with
    | error e => exact hkeep
    | ok r =>
      simp only [dbAfter]
      rw [logout_ok_db _ _ _ _ hres]
      exact hkeep
  | revokeUserSessionOp st =>
    simp only [applyOp, revoke_user_session]
    refine ⟨⟨?_, hi⟩, listMono_updateFirst _ _ _ (fun a _ => sessionRowMono_refl a)
      (fun a ha _ => ⟨rfl, statusMono_to_revoked (hs a ha)⟩),
      listMono_refl impRowMono_refl _⟩
    intro s hsmem
    rcases mem_updateFirst hsmem with hmem | ⟨x, _, hx⟩
    · exact hs s hmem
    · rw [hx]
      intro hcontra
      cases hcontra
  | revokeSessionOp now t sid =>
    simp only [applyOp]
    cases hres : revoke_session db now t sid with
    | error e => exact hkeep
    | ok r =>
      simp only [dbAfter]
      obtain ⟨uid, hdb2⟩ := revoke_session_ok_db _ _ _ _ _ hres
      rw [hdb2]
      refine ⟨⟨?_, hi⟩, listMono_updateFirst _ _ _ (fun a _ => sessionRowMono_refl a)
        (fun a ha _ => ⟨rfl, statusMono_to_revoked (hs a ha)⟩),
        listMono_refl impRowMono_refl _⟩
      intro s hsmem
      rcases mem_updateFirst hsmem with hmem | ⟨x, _, hx⟩
      · exact hs s hmem
      · rw [hx]
        intro hcontra
        cases hcontra
  | revokeAllSessionsOp now t =>
    simp only [applyOp]
    cases hres : revoke_all_sessions db now t with
    | error e => exact hkeep
    | ok r =>
      simp only [dbAfter]
      obtain ⟨uid, hdb2⟩ := revoke_all_sessions_ok_db _ _ _ _ hres
      rw [hdb2]
      refine ⟨⟨?_, hi⟩, listMono_map _ _ ?_, listMono_refl impRowMono_refl _⟩
      · intro s hsmem
        rcases List.mem_map.mp hsmem with ⟨x, hxmem, hx⟩
        by_cases hcond : (x.user_id == uid && x.status == SessionStatus.active
            && decide (now < x.expires_at)) = true
        · rw [← hx, if_pos hcond]
          intro hcontra
          cases hcontra
        · rw [← hx, if_neg hcond]
          exact hs x hxmem
      · intro a ha
        by_cases hcond : (a.user_id == uid && a.status == SessionStatus.active
            && decide (now < a.expires_at)) = true
        · rw [if_pos hcond]
          exact ⟨rfl, statusMono_to_revoked (hs a ha)⟩
        · rw [if_neg hcond]
          exact sessionRowMono_refl a
  | startImpersonationOp a target reason now stok sid =>
    simp only [applyOp]
    cases hres : start_impersonation db a target reason now stok sid with
    | error e => exact hkeep
    | ok r =>
      simp only [dbAfter]
      obtain ⟨row, hdb2, hrow⟩ := start_impersonation_ok_db _ _ _ _ _ _ _ _ hres
      rw [hdb2]
      refine ⟨⟨hs, ?_⟩, listMono_refl sessionRowMono_refl _,
        listMono_append impRowMono_refl _ _⟩
      intro s hsmem
      rcases List.mem_append.mp hsmem with hmem | hmem
      · exact hi s hmem
      · rw [List.mem_singleton.mp hmem, hrow]
        intro hcontra
        cases hcontra
  | endImpersonationOp a sid now =>
    simp only [applyOp]
    cases hres : end_impersonation db a sid now with
    | error e => exact hkeep
    | ok r =>
      simp only [dbAfter]
      rw [end_impersonation_ok_db _ _ _ _ _ hres]
      refine ⟨⟨hs, ?_⟩, listMono_refl sessionRowMono_refl _,
        listMono_updateFirst _ _ _ (fun x _ => impRowMono_refl x)
          (fun x hx _ => ⟨rfl, statusMono_to_revoked (hi x hx)⟩)⟩
      intro s hsmem
      rcases mem_updateFirst hsmem with hmem | ⟨x, _, hx⟩
      · exact hi s hmem
      · rw [hx]
        intro hcontra
        cases hcontra

/-- `verify_token` can only return the token's own claims. -/
theorem verify_token_some (now : Nat) (t : Token) (p : Payload)
    (h : verify_token now t = some p) : p = t.payload := by
  unfold verify_token at h
  by_cases hc : (t.signedWithKey && decide (now ≤ t.payload.exp)) = true
  · rw [if_pos hc] at h
    injection h with h2
    exact h2.symm
  · rw [if_neg hc] at h
    cases h

/-- `find?` skips a prefix containing no match. -/
theorem find?_append_right_none {l1 l2 : List α} (p : α → Bool)
    (h : l1.find? p = none) : (l1 ++ l2).find? p = l2.find? p := by
  simp [List.find?_append, h]

/-- C7: session-status transitions are monotone for both session kinds:
starting from any store without Expired rows (all reachable stores, since no
core operation ever writes Expired), any sequence of core operations keeps
every surviving row's id in place and moves its status only along
unchanged-or-Active-to-Revoked/Expired steps; in particular no operation
sequence ever returns a Revoked or Expired row to Active. -/
theorem session_status_transitions_monotone (ops : List CoreOp) (db : Db)
    (hdb : noExpiredStatus db) :
    noExpiredStatus (runOps ops db)
      ∧ listMono sessionRowMono db.sessions (runOps ops db).sessions
      ∧ listMono impRowMono db.impSessions (runOps ops db).impSessions := by
  induction ops generalizing db with
  | nil =>
    exact ⟨hdb, listMono_refl sessionRowMono_refl _, listMono_refl impRowMono_refl _⟩
  | cons op ops ih =>
    have hstep := applyOp_mono op db hdb
    have hrest := ih (applyOp op db) hstep.1
    have hrun : runOps (op :: ops) db = runOps ops (applyOp op db) := rfl
    rw [hrun]
    exact ⟨hrest.1,
      listMono_trans sessionRowMono_trans hstep.2.1 hrest.2.1,
      listMono_trans impRowMono_trans hstep.2.2 hrest.2.2⟩

/-- C3 (documents the code bug): `logout` authenticates the caller, returns
the success message, and leaves the store entirely unchanged — it never
transitions the caller's session to Revoked, so previously issued tokens
keep resolving. -/
theorem logout_performs_no_revocation (db : Db) (now : Nat) (t : Token)
    (m : String) (db2 : Db) (h : logout db now t = Except.ok (m, db2)) :
    db2 = db ∧ m = "Successfully logged out" := by
  have hdb := logout_ok_db db now t (m, db2) h
  refine ⟨hdb, ?_⟩
  unfold logout at h
  cases hg : get_current_user db now t with
  | error e =>
    rw [hg] at h
    cases h
  | ok u =>
    rw [hg] at h
    injection h with h2
    injection h2 with h3 h4
    exact h3.symm

/-- C9: a successful `refresh` issues the new access token bound to the very
same `session_token` claim, returns the same refresh token unrotated, and
leaves the store — hence the correlated session row's status, `expires_at`,
`refresh_token` and `last_activity` — entirely unchanged. -/
theorem refresh_preserves_session_row (db : Db) (now : Nat) (t : Token)
    (resp : TokenResponse) (db2 : Db)
    (h : refresh_token db now t = Except.ok (resp, db2)) :
    db2 = db
      ∧ resp.access_token.payload.session_token = t.payload.session_token
      ∧ resp.refresh_token = t := by
  refine ⟨refresh_token_ok_db db now t (resp, db2) h, ?_⟩
  unfold refresh_token at h
  cases hv : verify_token now t with
  | none =>
    rw [hv] at h
    cases h
  | some payload =>
    rw [hv] at h
    have hp := verify_token_some _ _ _ hv
    cases hty : payload.type == "refresh" with
    | false => simp [hty] at h
    | true =>
      cases htr : truthy payload.sub && truthy payload.session_token with
      | false => simp [hty, htr] at h
      | true =>
        cases hs : findSessionByTokenActive db (payload.session_token.getD "") with
        | none => simp [hty, htr, hs] at h
        | some s =>
          cases hexp : decide (s.expires_at < now) with
          | true => simp [hty, htr, hs, of_decide_eq_true hexp] at h
          | false =>
            simp only [hty, htr, hs, Bool.not_true, Bool.false_eq_true, if_false,
              if_true, of_decide_eq_false hexp] at h
            injection h with h2
            injection h2 with h3 h4
            rw [← h3, ← hp]
            exact ⟨rfl, rfl⟩

/-- C8: `refresh` rejects every token whose `type` claim is `access` with
the 401 `invalid_refresh_token_exception`, whatever its signature or expiry
state; and whenever `refresh` succeeds, the presented token's `type` claim
was `refresh`. -/
theorem refresh_rejects_access_tokens (db : Db) (now : Nat) (t t2 : Token)
    (htype : t.payload.type = "access") :
    refresh_token db now t = Except.error invalid_refresh_token_exception
      ∧ invalid_refresh_token_exception.status_code = 401
      ∧ (∀ resp db2, refresh_token db now t2 = Except.ok (resp, db2) →
          t2.payload.type = "refresh") := by
  refine ⟨?_, rfl, ?_⟩
  · unfold refresh_token
    cases hv : verify_token now t with
    | none => rfl
    | some p =>
      have hp := verify_token_some _ _ _ hv
      rw [hp]
      simp [htype]
  · intro resp db2 hok
    unfold refresh_token at hok
    cases hv : verify_token now t2 with
    | none =>
      rw [hv] at hok
      cases hok
    | some p =>
      rw [hv] at hok
      have hp := verify_token_some _ _ _ hv
      cases hty : p.type == "refresh" with
      | false => simp [hty] at hok
      | true =>
        rw [← hp]
        exact eq_of_beq hty

/-- C10: the two credential-failure causes of `login` — unknown username,
and known username with failing password verification — produce the very
same `HTTPError` value (same status, detail and headers), so the response
carries no user-enumeration signal. -/
theorem login_failure_indistinguishable (db : Db)
    (verify_password : String → String → Bool) (u1 p1 u2 p2 : String) (u : User)
    (now : Nat) (st rt sid : String) (ip ua : Option String)
    (h1 : findUserByUsername db u1 = none)
    (h2 : findUserByUsername db u2 = some u)
    (h3 : verify_password p2 u.hashed_password = false) :
    login db verify_password u1 p1 now st rt sid ip ua
        = Except.error invalid_credentials_exception
      ∧ login db verify_password u2 p2 now st rt sid ip ua
          = Except.error invalid_credentials_exception
      ∧ login db verify_password u1 p1 now st rt sid ip ua
          = login db verify_password u2 p2 now st rt sid ip ua := by
  have g1 : login db verify_password u1 p1 now st rt sid ip ua
      = Except.error invalid_credentials_exception := by
    unfold login
    rw [h1]
  have g2 : login db verify_password u2 p2 now st rt sid ip ua
      = Except.error invalid_credentials_exception := by
    unfold login
    rw [h2]
    simp [h3]
  exact ⟨g1, g2, g1.trans g2.symm⟩

/-- C5: when the relevant session claims are absent, both identity resolvers
skip the session-store liveness check entirely: a signature-valid, unexpired
token with a `sub` claim but no truthy `session_token` resolves through
`get_current_user` purely by user lookup, whatever the session tables hold;
likewise a token with `impersonation = true` but a missing session-token or
impersonation-session-id claim resolves through
`get_current_user_with_impersonation` (with no context) purely by user
lookup.  Such tokens cannot be revoked server-side. -/
theorem missing_session_claims_skip_liveness_check
    (users : List User) (sess1 sess2 : List UserSession)
    (imp1 imp2 : List ImpersonationSession) (now : Nat) (t : Token)
    (uid : String) (u : User)
    (hsig : t.signedWithKey = true) (hexp : now ≤ t.payload.exp)
    (hsub : t.payload.sub = some uid)
    (hu : users.find? (fun x => x.id == uid) = some u) :
    (truthy t.payload.session_token = false →
      get_current_user ⟨users, sess1, imp1⟩ now t = Except.ok u
        ∧ get_current_user ⟨users, sess2, imp2⟩ now t = Except.ok u)
      ∧ (t.payload.impersonation = true →
          (truthy t.payload.session_token
            && truthy t.payload.impersonation_session_id) = false →
          get_current_user_with_impersonation ⟨users, sess1, imp1⟩ now t
              = Except.ok (u, none)
            ∧ get_current_user_with_impersonation ⟨users, sess2, imp2⟩ now t
                = Except.ok (u, none)) := by
  have hver : verify_token now t = some t.payload := by
    unfold verify_token
    simp [hsig, hexp]
  constructor
  · intro hst
    constructor <;> simp [get_current_user, hver, hsub, hst, findUserById, hu]
  · intro himp hst
    constructor <;>
      simp [get_current_user_with_impersonation, hver, hsub, himp, hst,
        findUserById, hu]

/-- If a list holds at most one `q`-match and `x` (a match) sits in its
middle, then neither side holds a match. -/
theorem filter_sides_nil {l1 l2 : List α} {x : α} (q : α → Bool) (hx : q x = true)
    (h : ((l1 ++ x :: l2).filter q).length ≤ 1) :
    (∀ y ∈ l1, q y = false) ∧ (∀ y ∈ l2, q y = false) := by
  rw [List.filter_append] at h
  rw [List.filter_cons_of_pos hx] at h
  simp only [List.length_append, List.length_cons] at h
  have h1 : (l1.filter q).length = 0 := by omega
  have h2 : (l2.filter q).length = 0 := by omega
  constructor
  · intro y hy
    have := List.filter_eq_nil_iff.mp (List.length_eq_zero.mp h1) y hy
    simpa using this
  · intro y hy
    have := List.filter_eq_nil_iff.mp (List.length_eq_zero.mp h2) y hy
    simpa using this

/-- `updateFirst` hits exactly the first match. -/
theorem updateFirst_append_first_match (p : α → Bool) (f : α → α)
    {l1 l2 : List α} {x : α} (h1 : ∀ y ∈ l1, p y = false) (hx : p x = true) :
    updateFirst p f (l1 ++ x :: l2) = l1 ++ f x :: l2 := by
  induction l1 with
  | nil => simp [updateFirst, hx]
  | cons a as ih =>
    have ha := h1 a (List.mem_cons_self a as)
    simp only [List.cons_append, updateFirst, ha, Bool.false_eq_true, if_false,
      List.append_eq]
    rw [ih (fun y hy => h1 y (List.mem_cons_of_mem a hy))]

/-- C2 (amended): presenting a bearer token whose `session_token` claim does
not occur among ordinary sessions — which is the case for every
impersonation token, since impersonation session tokens live in the separate
impersonation table — to the admin gate fails with the 401
`credentials_exception` (not 403): `get_admin_dependency` resolves through
`get_current_user`, which checks the ordinary-session table only, so the
gate rejects before any admin flag is consulted and never passes on the
initiating admin's privileges; the admin's own ordinary token still passes
the gate. -/
theorem impersonation_token_fails_admin_gate (db : Db) (now : Nat) (t ta : Token)
    (st : String) (a : User)
    (hst : t.payload.session_token = some st) (hne : (st == "") = false)
    (hnotuser : ∀ s ∈ db.sessions, (s.session_token == st) = false)
    (hadm : get_current_user db now ta = Except.ok a) (ha : a.is_admin = true) :
    get_admin_dependency db now t = Except.error credentials_exception
      ∧ credentials_exception.status_code = 401
      ∧ get_admin_dependency db now ta = Except.ok a := by
  refine ⟨?_, rfl, ?_⟩
  · unfold get_admin_dependency
    have hfind : findSessionByTokenActive db st = none :=
      find?_active_eq_none_of_no_token db.sessions st hnotuser
    cases hv : verify_token now t with
    | none => simp [get_current_user, hv]
    | some p =>
      have hp := verify_token_some _ _ _ hv
      subst hp
      cases hsub : t.payload.sub with
      | none => simp [get_current_user, hv, hsub]
      | some uid => simp [get_current_user, hv, hsub, hst, truthy, hne, hfind]
  · unfold get_admin_dependency
    rw [hadm]
    simp [ha]

/-- C4: for an admin `A` and an existing, active, non-self target `T`,
`start_impersonation` succeeds, reports `A` as the initiating admin, and the
returned access token resolves to effective user `T` together with an
impersonation context whose `admin_user_id` is `A.id`. -/
theorem start_impersonation_resolves_to_target
    (db : Db) (now : Nat) (A T : User) (reason : Option String) (stok sid : String)
    (hadmin : A.is_admin = true) (hAid : (A.id == "") = false)
    (hne : (A.id == T.id) = false)
    (hT : findUserById db T.id = some T) (hTact : T.is_active = true)
    (hfresh : ∀ s ∈ db.impSessions, (s.session_token == stok) = false)
    (hstok : (stok == "") = false) (hsid : (sid == "") = false) :
    ∃ resp db2,
      start_impersonation db A T.id reason now stok sid = Except.ok (resp, db2)
        ∧ resp.admin_user_id = A.id
        ∧ resp.target_user_id = T.id
        ∧ get_current_user_with_impersonation db2 now resp.access_token
            = Except.ok (T, some
                { admin_user_id := some A.id
                  impersonation_session_id := sid
                  session_token := stok
                  reason := reason }) := by
  have hstart : start_impersonation db A T.id reason now stok sid
      = Except.ok
        ({ access_token := create_access_token
             { sub := some T.id, session_token := some stok, type := "", exp := 0,
               impersonation := true, admin_user_id := some A.id,
               impersonation_session_id := some sid } now (some (15 * 60))
           refresh_token := create_refresh_token
             { sub := some T.id, session_token := some stok, type := "", exp := 0,
               impersonation := true, admin_user_id := some A.id,
               impersonation_session_id := some sid } now (some (2 * 3600))
           token_type := "bearer"
           expires_in := 900
           target_user_id := T.id
           admin_user_id := A.id
           impersonation_session_id := sid },
         { db with impSessions := db.impSessions ++
           [{ id := sid, admin_user_id := A.id, target_user_id := T.id,
              session_token := stok, reason := reason, created_at := now,
              expires_at := now + 2 * 3600, ended_at := none,
              status := SessionStatus.active }] }) := by
    unfold start_impersonation create_impersonation_session
    simp [hAid, hne, hT, hTact]
  refine ⟨_, _, hstart, rfl, rfl, ?_⟩
  · have hfind : findImpSessionByTokenActive
        { db with impSessions := db.impSessions ++
          [{ id := sid, admin_user_id := A.id, target_user_id := T.id,
             session_token := stok, reason := reason, created_at := now,
             expires_at := now + 2 * 3600, ended_at := none,
             status := SessionStatus.active }] } stok
        = some
          { id := sid, admin_user_id := A.id, target_user_id := T.id,
            session_token := stok, reason := reason, created_at := now,
            expires_at := now + 2 * 3600, ended_at := none,
            status := SessionStatus.active } := by
      unfold findImpSessionByTokenActive
      rw [find?_append_right_none _
        (List.find?_eq_none.mpr (fun y hy => by simp [hfresh y hy]))]
      simp
    have hnlt : ¬ (now + 2 * 3600 < now) := by omega
    have hT2 : db.users.find? (fun u => u.id == T.id) = some T := hT
    simp [get_current_user_with_impersonation, create_access_token, verify_token,
      truthy, hstok, hsid, hfind, hnlt, findUserById, hT2]

/-- C6: ending an owned Active impersonation session succeeds, stamps
`ended_at` and sets status Revoked; afterwards any token carrying that
session's claims fails resolution with a 401; and a second `end` on the same
session id fails with the 404 `impersonation_not_found_exception` rather
than succeeding silently.  (Row ids and session tokens are unique columns,
expressed by the two at-most-one-match hypotheses.) -/
theorem end_impersonation_session_revokes (db : Db) (now now2 : Nat)
    (s : ImpersonationSession) (t : Token)
    (hmem : s ∈ db.impSessions) (hact : s.status = SessionStatus.active)
    (huid : (db.impSessions.filter
      (fun x : ImpersonationSession => x.id == s.id)).length ≤ 1)
    (hutok : (db.impSessions.filter
      (fun x : ImpersonationSession => x.session_token == s.session_token)).length ≤ 1)
    (himp : t.payload.impersonation = true)
    (hst : t.payload.session_token = some s.session_token)
    (hstne : (s.session_token == "") = false)
    (hisid : truthy t.payload.impersonation_session_id = true) :
    ∃ db2, end_impersonation_session db s.id s.admin_user_id now = Except.ok db2
      ∧ (∃ s2 ∈ db2.impSessions, s2.id = s.id ∧ s2.status = SessionStatus.revoked
          ∧ s2.ended_at = some now)
      ∧ (∃ e, get_current_user_with_impersonation db2 now2 t = Except.error e
          ∧ e.status_code = 401)
      ∧ end_impersonation_session db2 s.id s.admin_user_id now2
          = Except.error impersonation_not_found_exception := by
  obtain ⟨l1, l2, hdec⟩ := List.append_of_mem hmem
  rw [hdec] at huid hutok
  obtain ⟨hid1, hid2⟩ := filter_sides_nil
    (fun x : ImpersonationSession => x.id == s.id) (by simp) huid
  obtain ⟨htok1, htok2⟩ := filter_sides_nil
    (fun x : ImpersonationSession => x.session_token == s.session_token) (by simp) hutok
  have hp : (s.id == s.id && s.admin_user_id == s.admin_user_id
      && s.status == SessionStatus.active) = true := by simp [hact]
  have hfind1 : db.impSessions.find? (fun x => x.id == s.id
      && x.admin_user_id == s.admin_user_id
      && x.status == SessionStatus.active) = some s := by
    rw [hdec, find?_append_right_none _
      (List.find?_eq_none.mpr (fun y hy => by simp [hid1 y hy]))]
    exact List.find?_cons_of_pos _ hp
  have hupd : updateFirst (fun x => x.id == s.id
      && x.admin_user_id == s.admin_user_id
      && x.status == SessionStatus.active)
      (fun x => { x with ended_at := some now, status := SessionStatus.revoked })
      db.impSessions
      = l1 ++ { s with ended_at := some now, status := SessionStatus.revoked } :: l2 := by
    rw [hdec]
    exact updateFirst_append_first_match _ _
      (fun y hy => by simp [hid1 y hy]) hp
  have hend1 : end_impersonation_session db s.id s.admin_user_id now
      = Except.ok { db with impSessions :=
          l1 ++ { s with ended_at := some now, status := SessionStatus.revoked } :: l2 } := by
    simp only [end_impersonation_session]
    rw [hfind1, hupd]
  refine ⟨_, hend1, ?_, ?_, ?_⟩
  · exact ⟨{ s with ended_at := some now, status := SessionStatus.revoked },
      List.mem_append.mpr (Or.inr (List.mem_cons_self _ _)), rfl, rfl, rfl⟩
  · have hfind2 : findImpSessionByTokenActive
        { db with impSessions :=
          l1 ++ { s with ended_at := some now, status := SessionStatus.revoked } :: l2 }
        s.session_token = none := by
      unfold findImpSessionByTokenActive
      apply List.find?_eq_none.mpr
      intro y hy
      rcases List.mem_append.mp hy with hy | hy
      · simp [htok1 y hy]
      · rcases List.mem_cons.mp hy with hy | hy
        · rw [hy]
          simp
        · simp [htok2 y hy]
    cases hv : verify_token now2 t with
    | none =>
      exact ⟨credentials_exception,
        by simp [get_current_user_with_impersonation, hv], rfl⟩
    | some p =>
      have hpp := verify_token_some _ _ _ hv
      subst hpp
      cases hsub : t.payload.sub with
      | none =>
        exact ⟨credentials_exception,
          by simp [get_current_user_with_impersonation, hv, hsub], rfl⟩
      | some uid =>
        refine ⟨impersonation_expired_exception, ?_, rfl⟩
        cases hisopt : t.payload.impersonation_session_id with
        | none =>
          rw [hisopt] at hisid
          simp [truthy] at hisid
        | some v =>
          rw [hisopt] at hisid
          simp only [truthy] at hisid
          simp [get_current_user_with_impersonation, hv, hsub, himp, hst, truthy,
            hstne, hisopt, hisid, hfind2]
  · have hfind3 : (l1 ++
        { s with ended_at := some now, status := SessionStatus.revoked } :: l2).find?
        (fun x => x.id == s.id && x.admin_user_id == s.admin_user_id
          && x.status == SessionStatus.active) = none := by
      apply List.find?_eq_none.mpr
      intro y hy
      rcases List.mem_append.mp hy with hy | hy
      · simp [hid1 y hy]
      · rcases List.mem_cons.mp hy with hy | hy
        · rw [hy]
          simp
        · simp [hid2 y hy]
    simp [end_impersonation_session, hfind3]

/-- C1 witness: the revocation theorem at the concrete store and token. -/
theorem revoked_session_rejects_valid_tokens_witness :
    get_current_user (revoke_user_session dbC1 "st1") 10 tokC1
        = Except.error credentials_exception
      ∧ get_current_user_with_impersonation (revoke_user_session dbC1 "st1") 10 tokC1
          = Except.error credentials_exception
      ∧ credentials_exception.status_code = 401 :=
  revoked_session_rejects_valid_tokens dbC1 10 tokC1 "st1" rfl (by decide) rfl
    (by decide) rfl (by decide)

/-- C2 counterexample: `impTokC2` is a live impersonation token whose target
`targetT2` is not an admin — it resolves fine through the impersonation
resolver — yet presenting it to the admin gate returns the 401
`credentials_exception`, not the 403 `admin_privileges_exception` the claim
asserts, while the initiating admin's own token passes the gate. -/
theorem impersonation_token_admin_gate_counterexample :
    get_current_user_with_impersonation dbC2 10 impTokC2
        = Except.ok (targetT2, some ctxC2)
      ∧ targetT2.is_admin = false
      ∧ get_admin_dependency dbC2 10 adminTokC2 = Except.ok adminA2
      ∧ get_admin_dependency dbC2 10 impTokC2 = Except.error credentials_exception
      ∧ credentials_exception.status_code = 401
      ∧ admin_privileges_exception.status_code = 403
      ∧ get_admin_dependency dbC2 10 impTokC2
          ≠ Except.error admin_privileges_exception := by
  decide

/-- C2 witness: the amended theorem at the concrete store and tokens. -/
theorem impersonation_token_fails_admin_gate_witness :
    get_admin_dependency dbC2 10 impTokC2 = Except.error credentials_exception
      ∧ credentials_exception.status_code = 401
      ∧ get_admin_dependency dbC2 10 adminTokC2 = Except.ok adminA2 :=
  impersonation_token_fails_admin_gate dbC2 10 impTokC2 adminTokC2 "itok" adminA2
    rfl (by decide) (by decide) (by decide) rfl

/-- C3 witness: a concrete logout run — it succeeds, leaves the store
unchanged, the session is still Active and the token still resolves. -/
theorem logout_performs_no_revocation_witness :
    (dbC3 = dbC3 ∧ "Successfully logged out" = "Successfully logged out")
      ∧ logout dbC3 10 tokC3 = Except.ok ("Successfully logged out", dbC3)
      ∧ findSessionByTokenActive dbC3 "st3" = some sessC3
      ∧ get_current_user dbC3 10 tokC3 = Except.ok userC3 :=
  ⟨logout_performs_no_revocation dbC3 10 tokC3 "Successfully logged out" dbC3
      (by decide),
    by decide, by decide, by decide⟩

/-- C4 witness: the impersonation-start theorem at concrete admin/target. -/
theorem start_impersonation_resolves_to_target_witness :
    ∃ resp db2,
      start_impersonation dbC4 adminA4 targetT4.id none 10 "stok4" "sid4"
          = Except.ok (resp, db2)
        ∧ resp.admin_user_id = adminA4.id
        ∧ resp.target_user_id = targetT4.id
        ∧ get_current_user_with_impersonation db2 10 resp.access_token
            = Except.ok (targetT4, some
                { admin_user_id := some adminA4.id
                  impersonation_session_id := "sid4"
                  session_token := "stok4"
                  reason := none }) :=
  start_impersonation_resolves_to_target dbC4 10 adminA4 targetT4 none "stok4"
    "sid4" rfl (by decide) (by decide) (by decide) rfl (by decide) (by decide)
    (by decide)

/-- C5 witness: the skip-liveness theorem at a concrete token with no
session claims, against both an empty store and one holding (revoked)
rows. -/
theorem missing_session_claims_skip_liveness_check_witness :
    (truthy tokC5.payload.session_token = false →
      get_current_user ⟨[userC5], [], []⟩ 10 tokC5 = Except.ok userC5
        ∧ get_current_user ⟨[userC5], [sessRowC5], [impRowC5]⟩ 10 tokC5
            = Except.ok userC5)
      ∧ (tokC5.payload.impersonation = true →
          (truthy tokC5.payload.session_token
            && truthy tokC5.payload.impersonation_session_id) = false →
          get_current_user_with_impersonation ⟨[userC5], [], []⟩ 10 tokC5
              = Except.ok (userC5, none)
            ∧ get_current_user_with_impersonation
                ⟨[userC5], [sessRowC5], [impRowC5]⟩ 10 tokC5
                = Except.ok (userC5, none)) :=
  missing_session_claims_skip_liveness_check [userC5] [] [sessRowC5] [] [impRowC5]
    10 tokC5 "u5" userC5 rfl (by decide) rfl (by decide)

/-- C6 witness: the end-impersonation theorem at the concrete store. -/
theorem end_impersonation_session_revokes_witness :
    ∃ db2, end_impersonation_session dbC6 impSessC6.id impSessC6.admin_user_id 10
        = Except.ok db2
      ∧ (∃ s2 ∈ db2.impSessions, s2.id = impSessC6.id
          ∧ s2.status = SessionStatus.revoked ∧ s2.ended_at = some 10)
      ∧ (∃ e, get_current_user_with_impersonation db2 20 tokC6 = Except.error e
          ∧ e.status_code = 401)
      ∧ end_impersonation_session db2 impSessC6.id impSessC6.admin_user_id 20
          = Except.error impersonation_not_found_exception :=
  end_impersonation_session_revokes dbC6 10 20 impSessC6 tokC6 (by decide) rfl
    (by decide) (by decide) rfl rfl (by decide) (by decide)

/-- C7 witness: the monotonicity theorem at a concrete store and operation
sequence. -/
theorem session_status_transitions_monotone_witness :
    noExpiredStatus (runOps opsC7 dbC7)
      ∧ listMono sessionRowMono dbC7.sessions (runOps opsC7 dbC7).sessions
      ∧ listMono impRowMono dbC7.impSessions (runOps opsC7 dbC7).impSessions :=
  session_status_transitions_monotone opsC7 dbC7 ⟨by decide, by decide⟩

/-- C8 witness: the refresh-rejects-access theorem at a concrete token. -/
theorem refresh_rejects_access_tokens_witness :
    refresh_token dbC8 10 tokC8 = Except.error invalid_refresh_token_exception
      ∧ invalid_refresh_token_exception.status_code = 401
      ∧ (∀ resp db2, refresh_token dbC8 10 tokC8 = Except.ok (resp, db2) →
          tokC8.payload.type = "refresh") :=
  refresh_rejects_access_tokens dbC8 10 tokC8 tokC8 rfl

/-- C9 witness: the refresh frame theorem at a concrete successful refresh. -/
theorem refresh_preserves_session_row_witness :
    dbC9 = dbC9
      ∧ refreshRespC9.access_token.payload.session_token
          = tokC9.payload.session_token
      ∧ refreshRespC9.refresh_token = tokC9 :=
  refresh_preserves_session_row dbC9 10 tokC9 refreshRespC9 dbC9 (by decide)

/-- C10 witness: both failure branches at concrete inputs — unknown
username "ghost", and known username "alice10" with a wrong password. -/
theorem login_failure_indistinguishable_witness :
    login dbC10 (fun pw hp => pw == hp) "ghost" "whatever" 0 "st" "rt" "sid"
        none none = Except.error invalid_credentials_exception
      ∧ login dbC10 (fun pw hp => pw == hp) "alice10" "wrongpass" 0 "st" "rt"
          "sid" none none = Except.error invalid_credentials_exception
      ∧ login dbC10 (fun pw hp => pw == hp) "ghost" "whatever" 0 "st" "rt" "sid"
          none none
        = login dbC10 (fun pw hp => pw == hp) "alice10" "wrongpass" 0 "st" "rt"
            "sid" none none :=
  login_failure_indistinguishable dbC10 (fun pw hp => pw == hp) "ghost" "whatever"
    "alice10" "wrongpass" userC10 0 "st" "rt" "sid" none none (by decide)
    (by decide) (by decide)
